import Mathlib

/-!
Shallow embedding of the Samsung Soundbar device-control client
(custom_components/samsung_soundbar/media_player.py) and proofs about it.

The embedding models:
- URL percent-encoding as performed by urllib.parse.quote / urlencode with
  quote_via=quote (safe characters: ALPHA, DIGIT, underscore, dot, hyphen,
  tilde, and the default safe slash), plus the inverse decoding;
- XML-to-mapping parsing as performed by xmltodict.parse on the flat
  element-only documents this device protocol uses;
- the Python exception outcomes (aiohttp.ClientError, asyncio.TimeoutError,
  ExpatError, KeyError, TypeError, AttributeError, ValueError) as an error
  type, with fallible code returning Except;
- SoundbarAPI.exec_cmd / get_value / set_value / get_soundbar_status, and
  SamsungSoundbarEntity.async_update / async_set_volume_level /
  async_mute_volume, with the HTTP layer abstracted as a function from the
  request URL to an outcome, and each operation also returning the list of
  request URLs it issued (its request trace).

Python floats are modelled as rationals; the concrete values appearing in
the claims are exactly representable, so the model is exact there.
-/

namespace Soundbar

/-! ## URL encoding: urllib.parse.quote and its inverse -/

/-- Characters urllib.parse.quote leaves unencoded with the default
safe value: letters, digits, underscore, dot, hyphen, tilde and slash. -/
def isUrlSafe (c : Char) : Bool :=
  let n := c.toNat
  (65 ≤ n && n ≤ 90) || (97 ≤ n && n ≤ 122) || (48 ≤ n && n ≤ 57) ||
    n == 95 || n == 46 || n == 45 || n == 126 || n == 47

/-- Uppercase hexadecimal digit for a value below 16, as quote produces. -/
def hexDigit (n : Nat) : Char :=
  if n < 10 then Char.ofNat (48 + n) else Char.ofNat (55 + n)

/-- Value of a hexadecimal digit character, if it is one. -/
def unhexDigit (c : Char) : Option Nat :=
  let n := c.toNat
  if 48 ≤ n ∧ n ≤ 57 then some (n - 48)
  else if 65 ≤ n ∧ n ≤ 70 then some (n - 55)
  else if 97 ≤ n ∧ n ≤ 102 then some (n - 87)
  else Option.none

/-- Percent-encoding of a character list: safe characters pass through,
others become a percent sign followed by two uppercase hex digits. -/
def quoteChars : List Char → List Char
  | [] => []
  | c :: cs =>
    if isUrlSafe c then c :: quoteChars cs
    else '%' :: hexDigit (c.toNat / 16) :: hexDigit (c.toNat % 16) :: quoteChars cs

/-- Percent-decoding of a character list: a percent sign followed by two
hex digits decodes to the corresponding character; everything else passes
through unchanged. -/
def unquoteChars : List Char → List Char
  | [] => []
  | '%' :: h :: l :: cs =>
    match unhexDigit h, unhexDigit l with
    | some a, some b => Char.ofNat (16 * a + b) :: unquoteChars cs
    | _, _ => '%' :: unquoteChars (h :: l :: cs)
  | c :: cs => c :: unquoteChars cs

/-- Model of urllib.parse.quote on strings. -/
def pyQuote (s : String) : String := String.mk (quoteChars s.data)

/-- Model of urllib.parse.unquote on strings. -/
def pyUnquote (s : String) : String := String.mk (unquoteChars s.data)

/-! ## Parsed XML values, as produced by xmltodict -/

/-- Values appearing in an xmltodict parse result: Python None (for an
empty element or an absent key fetched with dict.get), a text string, or
a nested mapping from child tag names to values. -/
inductive XVal where
  | none : XVal
  | text : String → XVal
  | dict : List (String × XVal) → XVal

/-- First-match association lookup in a parsed mapping. -/
def xlookup (key : String) : List (String × XVal) → Option XVal
  | [] => Option.none
  | (k, v) :: rest => if k = key then some v else xlookup key rest

/-- Splits a character list at the first closing angle bracket, dropping
that bracket; fails when there is none. -/
def splitAtGt : List Char → Option (List Char × List Char)
  | [] => Option.none
  | c :: cs =>
    if c = '>' then some ([], cs)
    else (splitAtGt cs).map (fun p => (c :: p.1, p.2))

/-- Folds collected children and text into the value of one element, the
way xmltodict does for the flat documents of this protocol: child elements
form a mapping, otherwise nonempty text is a string and an empty body is
Python None. -/
def mkXVal (children : List (String × XVal)) (txt : List Char) : XVal :=
  match children with
  | [] => if txt = [] then XVal.none else XVal.text (String.mk txt)
  | _ => XVal.dict children

mutual

/-- Parses one XML element (fuel-bounded): an opening tag, then content,
then the matching closing tag; a self-closing tag yields Python None. -/
def parseElem : Nat → List Char → Option (String × XVal × List Char)
  | 0, _ => Option.none
  | fuel + 1, cs =>
    match cs with
    | '<' :: rest =>
      match splitAtGt rest with
      | some (tagChars, rest2) =>
        if tagChars = [] then Option.none
        else if tagChars.getLast? = some '/' then
          some (String.mk (tagChars.dropLast), XVal.none, rest2)
        else
          match parseContent fuel (String.mk tagChars) [] [] rest2 with
          | some (v, rest3) => some (String.mk tagChars, v, rest3)
          | Option.none => Option.none
      | Option.none => Option.none
    | _ => Option.none

/-- Parses element content (fuel-bounded), accumulating child elements and
raw text, until the closing tag for the given tag name. -/
def parseContent (fuel : Nat) (tag : String) (children : List (String × XVal))
    (txt : List Char) (cs : List Char) : Option (XVal × List Char) :=
  match fuel with
  | 0 => Option.none
  | fuel + 1 =>
    match cs with
    | [] => Option.none
    | '<' :: '/' :: rest =>
      match splitAtGt rest with
      | some (closeTag, rest2) =>
        if String.mk closeTag = tag then some (mkXVal children txt, rest2)
        else Option.none
      | Option.none => Option.none
    | '<' :: rest =>
      match parseElem fuel ('<' :: rest) with
      | some (ctag, cval, rest2) =>
        parseContent fuel tag (children ++ [(ctag, cval)]) txt rest2
      | Option.none => Option.none
    | c :: rest => parseContent fuel tag children (txt ++ [c]) rest

end

/-- Model of xmltodict.parse: parses a whole document into its root tag
and root value; fails (ExpatError in Python) on anything malformed,
including trailing content after the root element. -/
def xmltodictParse (s : String) : Option (String × XVal) :=
  match parseElem (2 * s.data.length + 4) s.data with
  | some (tag, v, rest) => if rest = [] then some (tag, v) else Option.none
  | Option.none => Option.none

/-! ## Python-side value and error model -/

/-- Exception outcomes the embedded code can produce. -/
inductive PyError where
  | clientError : PyError
  | timeoutError : PyError
  | expatError : PyError
  | keyError : String → PyError
  | typeError : PyError
  | attributeError : PyError
  | valueError : PyError
deriving DecidableEq, Repr

/-- Outcome of one HTTP GET as seen by exec_cmd: a timeout, a client/
connection error raised by aiohttp, or a response with a status code and
a body. -/
inductive HttpOutcome where
  | timeout : HttpOutcome
  | connError : HttpOutcome
  | response : Nat → String → HttpOutcome

/-- Set or numeric values passed to set_value: a Python str or int. -/
inductive PyVal where
  | str : String → PyVal
  | int : Int → PyVal
deriving DecidableEq, Repr

/-- Rendering of a PyVal inside an f-string, as Python formats it. -/
def pyValRender : PyVal → String
  | PyVal.str s => s
  | PyVal.int n => toString n

/-- Python equality test between a parsed XML value and a string literal:
only a text value can compare equal; None and dicts compare unequal. -/
def pyEqStr (v : XVal) (s : String) : Bool :=
  match v with
  | XVal.text t => t = s
  | _ => false

/-- Numeric value of a string of decimal digits, if nonempty and all
digits. -/
def digitsVal : List Char → Option Nat
  | [] => Option.none
  | [c] => if c.isDigit then some (c.toNat - 48) else Option.none
  | c :: cs =>
    if c.isDigit then
      (digitsVal cs).map (fun n => (c.toNat - 48) * 10 ^ cs.length + n)
    else Option.none

/-- Splits a character list at the first dot, if any. -/
def splitAtDot : List Char → (List Char × Option (List Char))
  | [] => ([], Option.none)
  | c :: cs =>
    if c = '.' then ([], some cs)
    else
      let p := splitAtDot cs
      (c :: p.1, p.2)

/-- Integer numerator and denominator of a Python float literal string:
an optional sign, an integer part and an optional fractional part, at
least one of the two parts nonempty; anything else is rejected. -/
def parseFloatParts (s : String) : Option (Int × Nat) :=
  let (sign, cs) : Int × List Char :=
    match s.data with
    | '-' :: rest => (-1, rest)
    | '+' :: rest => (1, rest)
    | cs => (1, cs)
  match splitAtDot cs with
  | (intPart, Option.none) => (digitsVal intPart).map (fun n => (sign * n, 1))
  | (intPart, some fracPart) =>
    if intPart = [] ∧ fracPart = [] then Option.none
    else if intPart.all Char.isDigit ∧ fracPart.all Char.isDigit then
      some (sign * ((digitsVal intPart).getD 0 * 10 ^ fracPart.length +
        (digitsVal fracPart).getD 0), 10 ^ fracPart.length)
    else Option.none

/-- Model of Python float() applied to a string, as a rational. -/
def parseFloatStr (s : String) : Option Rat :=
  (parseFloatParts s).map (fun p => (p.1 : Rat) / (p.2 : Nat))

/-- Model of Python float() applied to an extracted XML value: text is
parsed as a number (ValueError when not numeric); None and dicts raise
TypeError. -/
def pyFloat (v : XVal) : Except PyError Rat :=
  match v with
  | XVal.text s =>
    match parseFloatStr s with
    | some q => Except.ok q
    | Option.none => Except.error PyError.valueError
  | _ => Except.error PyError.typeError

/-- Model of Python int() applied to a float: truncation toward zero. -/
def pyTruncInt (q : Rat) : Int :=
  if 0 ≤ q then ⌊q⌋ else -⌊-q⌋

/-! ## SoundbarAPI -/

/-- Request URL exec_cmd builds: the endpoint, a question mark, and the
cmd query parameter percent-encoded by urlencode with quote_via=quote. -/
def execCmdUrl (endpoint cmd : String) : String :=
  endpoint ++ "?" ++ "cmd=" ++ pyQuote cmd

/-- Extraction step of exec_cmd on the parse result: the Python
expression indexing the root dict with UIC, then response, then calling
dict.get with the requested key. KeyError, TypeError and AttributeError
arise exactly where the Python expression raises them. -/
def extractKey (root : String × XVal) (key : String) : Except PyError XVal :=
  if root.1 = "UIC" then
    match root.2 with
    | XVal.dict es =>
      match xlookup "response" es with
      | some (XVal.dict es2) => Except.ok ((xlookup key es2).getD XVal.none)
      | some _ => Except.error PyError.attributeError
      | Option.none => Except.error (PyError.keyError "response")
    | _ => Except.error PyError.typeError
  else Except.error (PyError.keyError "UIC")

/-- Model of SoundbarAPI.exec_cmd: builds the URL, performs one GET
through the given HTTP layer, raises on client error, timeout or a status
of 400 or more, parses the body with xmltodict and extracts the requested
key. The first component is the list of request URLs issued. -/
def exec_cmd (http : String → HttpOutcome) (endpoint cmd key : String) :
    List String × Except PyError XVal :=
  let url := execCmdUrl endpoint cmd
  ([url],
    match http url with
    | HttpOutcome.timeout => Except.error PyError.timeoutError
    | HttpOutcome.connError => Except.error PyError.clientError
    | HttpOutcome.response status body =>
      if 400 ≤ status then Except.error PyError.clientError
      else
        match xmltodictParse body with
        | some root => extractKey root key
        | Option.none => Except.error PyError.expatError)

/-- Model of SoundbarAPI.get_value: wraps the action in a name element
and delegates to exec_cmd. -/
def get_value (http : String → HttpOutcome) (endpoint action key : String) :
    List String × Except PyError XVal :=
  exec_cmd http endpoint ("<name>" ++ action ++ "</name>") key

/-- Wire type tag set_value chooses: str for a Python str, dec
otherwise. -/
def setValueType (value : PyVal) : String :=
  match value with
  | PyVal.str _ => "str"
  | PyVal.int _ => "dec"

/-- Command string set_value builds. -/
def setValueCmd (action property_name : String) (value : PyVal) : String :=
  "<name>" ++ action ++ "</name><p type=\"" ++ setValueType value ++
    "\" name=\"" ++ property_name ++ "\" val=\"" ++ pyValRender value ++ "\"/>"

/-- Model of SoundbarAPI.set_value: picks the wire type tag from the
value's runtime type, builds the parameterised command and delegates to
exec_cmd with the property name as the key to extract. -/
def set_value (http : String → HttpOutcome) (endpoint action property_name : String)
    (value : PyVal) : List String × Except PyError XVal :=
  exec_cmd http endpoint (setValueCmd action property_name value) property_name

/-- Raw status triple returned by get_soundbar_status. -/
structure SoundbarStatus where
  power : XVal
  volume : XVal
  mute : XVal

/-- Model of SoundbarAPI.get_soundbar_status: three sequential get_value
calls; a failure aborts the remaining calls and propagates. Note the code
passes actions already wrapped in name elements, which get_value wraps
again. -/
def get_soundbar_status (http : String → HttpOutcome) (endpoint : String) :
    List String × Except PyError SoundbarStatus :=
  let r1 := get_value http endpoint "<name>GetPowerStatus</name>" "power"
  match r1.2 with
  | Except.error e => (r1.1, Except.error e)
  | Except.ok power =>
    let r2 := get_value http endpoint "<name>GetVolume</name>" "volume"
    match r2.2 with
    | Except.error e => (r1.1 ++ r2.1, Except.error e)
    | Except.ok volume =>
      let r3 := get_value http endpoint "<name>GetMute</name>" "mute"
      match r3.2 with
      | Except.error e => (r1.1 ++ r2.1 ++ r3.1, Except.error e)
      | Except.ok mute =>
        (r1.1 ++ r2.1 ++ r3.1, Except.ok ⟨power, volume, mute⟩)

/-! ## SamsungSoundbarEntity -/

/-- Entity states the adapter assigns: STATE_OFF or STATE_ON. -/
inductive MediaState where
  | off : MediaState
  | on : MediaState
deriving DecidableEq, Repr

/-- Cached entity snapshot: state, volume fraction and mute flag. The
volume starts out as Python None, hence the option. -/
structure EntityState where
  state : MediaState
  volume : Option Rat
  is_muted : Bool
deriving DecidableEq, Repr

/-- Entity state set by the constructor. -/
def initialEntityState : EntityState :=
  { state := MediaState.off, volume := Option.none, is_muted := false }

/-- Model of SamsungSoundbarEntity.async_update: fetches the status, then
assigns the mute flag, then the volume fraction, then the power state, in
the source's order; an exception leaves the remaining fields unchanged and
propagates. -/
def async_update (http : String → HttpOutcome) (endpoint : String)
    (s : EntityState) : EntityState × Except PyError Unit :=
  match (get_soundbar_status http endpoint).2 with
  | Except.error e => (s, Except.error e)
  | Except.ok st =>
    let s1 := { s with is_muted := pyEqStr st.mute "on" }
    match pyFloat st.volume with
    | Except.error e => (s1, Except.error e)
    | Except.ok v =>
      let s2 := { s1 with volume := some (v / 100) }
      let s3 := { s2 with
        state := if pyEqStr st.power "off" then MediaState.off else MediaState.on }
      (s3, Except.ok ())

/-- Model of SamsungSoundbarEntity.async_mute_volume. -/
def async_mute_volume (http : String → HttpOutcome) (endpoint : String)
    (mute : Bool) : List String × Except PyError XVal :=
  set_value http endpoint "SetMute" "mute" (PyVal.str (if mute then "on" else "off"))

/-- Model of SamsungSoundbarEntity.async_set_volume_level: converts the
0.0 to 1.0 fraction to the 0 to 100 scale with int(), a truncation. -/
def async_set_volume_level (http : String → HttpOutcome) (endpoint : String)
    (volume : Rat) : List String × Except PyError XVal :=
  set_value http endpoint "SetVolume" "volume" (PyVal.int (pyTruncInt (volume * 100)))

/-! ## Round trip of percent-encoding -/

/-- Hex digits produced by hexDigit decode back to their value. -/
theorem unhexDigit_hexDigit : ∀ n : Nat, n < 16 → unhexDigit (hexDigit n) = some n := by
  decide

/-- Decoding steps over a character other than the percent sign. -/
theorem unquoteChars_cons_of_ne (c : Char) (cs : List Char) (hne : c ≠ '%') :
    unquoteChars (c :: cs) = c :: unquoteChars cs := by
  match cs with
  | [] => simp [unquoteChars, hne]
  | [h] => simp [unquoteChars, hne]
  | h :: l :: t => simp [unquoteChars, hne]

/-- Characters quote leaves unencoded are never a percent sign. -/
theorem isUrlSafe_ne_percent (c : Char) (hs : isUrlSafe c = true) : c ≠ '%' := by
  intro he
  subst he
  revert hs
  decide

/-- Percent-decoding undoes percent-encoding on character lists whose
characters fit in one byte. -/
theorem unquoteChars_quoteChars (cs : List Char) (h : ∀ c ∈ cs, c.toNat < 256) :
    unquoteChars (quoteChars cs) = cs := by
  induction cs with
  | nil => rfl
  | cons c cs ih =>
    have hc : c.toNat < 256 := h c (List.mem_cons_self c cs)
    have hrest : ∀ x ∈ cs, x.toNat < 256 := fun x hx => h x (List.mem_cons_of_mem c hx)
    by_cases hs : isUrlSafe c
    · have hne : c ≠ '%' := isUrlSafe_ne_percent c hs
      rw [show quoteChars (c :: cs) = c :: quoteChars cs from by simp [quoteChars, hs],
        unquoteChars_cons_of_ne c _ hne, ih hrest]
    · have hhi : c.toNat / 16 < 16 := by omega
      have hlo : c.toNat % 16 < 16 := Nat.mod_lt _ (by norm_num)
      have e1 : unhexDigit (hexDigit (c.toNat / 16)) = some (c.toNat / 16) :=
        unhexDigit_hexDigit _ hhi
      have e2 : unhexDigit (hexDigit (c.toNat % 16)) = some (c.toNat % 16) :=
        unhexDigit_hexDigit _ hlo
      rw [show quoteChars (c :: cs) =
          '%' :: hexDigit (c.toNat / 16) :: hexDigit (c.toNat % 16) :: quoteChars cs from by
        simp [quoteChars, hs]]
      rw [show unquoteChars ('%' :: hexDigit (c.toNat / 16) :: hexDigit (c.toNat % 16) ::
          quoteChars cs) = Char.ofNat (16 * (c.toNat / 16) + c.toNat % 16) ::
          unquoteChars (quoteChars cs) from by simp [unquoteChars, e1, e2]]
      rw [Nat.div_add_mod, Char.ofNat_toNat, ih hrest]

/-- String-level round trip: pyUnquote undoes pyQuote on strings whose
characters fit in one byte. -/
theorem pyUnquote_pyQuote (s : String) (h : ∀ c ∈ s.data, c.toNat < 256) :
    pyUnquote (pyQuote s) = s := by
  cases s with
  | mk data =>
    show String.mk (unquoteChars (quoteChars data)) = String.mk data
    rw [unquoteChars_quoteChars data h]

/-! ## Concrete fixtures: endpoints, device bodies and HTTP layers -/

/-- Endpoint string the SoundbarAPI constructor derives from host and
port. -/
def soundbarEndpoint (host : String) (port : Nat) : String :=
  "http://" ++ host ++ ":" ++ toString port ++ "/UIC"

/-- Demo endpoint used by the concrete scenarios. -/
def demoEndpoint : String := soundbarEndpoint "192.168.1.10" 55001

/-- The canned device response of the round-trip scenario. -/
def cannedBody : String :=
  "<UIC><response><power>on</power><volume>37</volume><mute>off</mute></response></UIC>"

/-- Device answering every request with the canned response. -/
def cannedHttp : String → HttpOutcome :=
  fun _ => HttpOutcome.response 200 cannedBody

/-- Well-formed device response lacking the mute field. -/
def noMuteBody : String :=
  "<UIC><response><power>on</power><volume>37</volume></response></UIC>"

/-- Device answering every request with the response lacking mute. -/
def noMuteHttp : String → HttpOutcome :=
  fun _ => HttpOutcome.response 200 noMuteBody

/-- Well-formed device response lacking the volume field. -/
def noVolumeBody : String :=
  "<UIC><response><power>on</power><mute>on</mute></response></UIC>"

/-- Device answering every request with the response lacking volume. -/
def noVolumeHttp : String → HttpOutcome :=
  fun _ => HttpOutcome.response 200 noVolumeBody

/-- Well-formed device response without the UIC envelope. -/
def noEnvelopeBody : String := "<foo><bar>1</bar></foo>"

/-- Device answering every request with the envelope-free response. -/
def noEnvelopeHttp : String → HttpOutcome :=
  fun _ => HttpOutcome.response 200 noEnvelopeBody

/-- Canned response with volume at the lower boundary. -/
def volume0Body : String :=
  "<UIC><response><power>on</power><volume>0</volume><mute>off</mute></response></UIC>"

/-- Device answering with the lower-boundary volume. -/
def volume0Http : String → HttpOutcome :=
  fun _ => HttpOutcome.response 200 volume0Body

/-- Canned response with volume at the upper boundary. -/
def volume100Body : String :=
  "<UIC><response><power>on</power><volume>100</volume><mute>off</mute></response></UIC>"

/-- Device answering with the upper-boundary volume. -/
def volume100Http : String → HttpOutcome :=
  fun _ => HttpOutcome.response 200 volume100Body

/-- Device failing every request with an HTTP 500. -/
def http500 : String → HttpOutcome :=
  fun _ => HttpOutcome.response 500 "Internal Server Error"

/-- Device timing out on every request. -/
def timeoutHttp : String → HttpOutcome :=
  fun _ => HttpOutcome.timeout

/-! ## Helper evaluation lemmas -/

/-- Python float() of the text value 37 is the rational 37. -/
theorem pyFloat_text_37 : pyFloat (XVal.text "37") = Except.ok 37 := by
  simp [pyFloat, parseFloatStr, show parseFloatParts "37" = some (37, 1) from by decide]

/-- Python float() of the text value 0 is the rational 0. -/
theorem pyFloat_text_0 : pyFloat (XVal.text "0") = Except.ok 0 := by
  simp [pyFloat, parseFloatStr, show parseFloatParts "0" = some (0, 1) from by decide]

/-- Python float() of the text value 100 is the rational 100. -/
theorem pyFloat_text_100 : pyFloat (XVal.text "100") = Except.ok 100 := by
  simp [pyFloat, parseFloatStr, show parseFloatParts "100" = some (100, 1) from by decide]

/-! ## Claim theorems -/

/-- C5: on any failure raised by get_soundbar_status, async_update fails
with that same underlying error and leaves every field of the previously
cached snapshot exactly as it was: no reset and no update of any
field. -/
theorem async_update_failure_preserves_snapshot (http : String → HttpOutcome)
    (endpoint : String) (s : EntityState) (e : PyError)
    (h : (get_soundbar_status http endpoint).2 = Except.error e) :
    async_update http endpoint s = (s, Except.error e) := by
  simp [async_update, h]

/-- C5 witness: a timeout during the status fetch leaves the initial
snapshot untouched and propagates the timeout error. -/
theorem async_update_failure_preserves_snapshot_witness :
    async_update timeoutHttp demoEndpoint initialEntityState =
      (initialEntityState, Except.error PyError.timeoutError) :=
  async_update_failure_preserves_snapshot timeoutHttp demoEndpoint
    initialEntityState PyError.timeoutError (by rfl)

/-- C6: with the canned response served for each status request,
get_soundbar_status returns the raw strings on, 37 and off, and
async_update derives the snapshot with state on, volume fraction 0.37 and
muted false, successfully. -/
theorem canned_roundtrip_snapshot :
    (get_soundbar_status cannedHttp demoEndpoint).2 =
      Except.ok ⟨XVal.text "on", XVal.text "37", XVal.text "off"⟩
    ∧ (async_update cannedHttp demoEndpoint initialEntityState).1 =
      { state := MediaState.on, volume := some (37 / 100), is_muted := false }
    ∧ (async_update cannedHttp demoEndpoint initialEntityState).2 = Except.ok () := by
  have h : (get_soundbar_status cannedHttp demoEndpoint).2 =
      Except.ok ⟨XVal.text "on", XVal.text "37", XVal.text "off"⟩ := by rfl
  refine ⟨h, ?_, ?_⟩
  · simp [async_update, h, pyFloat_text_37, pyEqStr]
  · simp [async_update, h, pyFloat_text_37]

/-- C7: set_value picks the wire type tag dec exactly for numeric values
and str otherwise, builds the parameterised command with the property
name and the rendered value embedded verbatim, and delegates to exec_cmd
with the property name as the key extracted from the response. -/
theorem set_value_wire_type_and_cmd (http : String → HttpOutcome)
    (endpoint action prop : String) (v : PyVal) :
    set_value http endpoint action prop v =
      exec_cmd http endpoint (setValueCmd action prop v) prop
    ∧ (setValueType v = "dec" ↔ ∃ n, v = PyVal.int n)
    ∧ setValueCmd action prop v =
      "<name>" ++ action ++ "</name><p type=\"" ++ setValueType v ++
        "\" name=\"" ++ prop ++ "\" val=\"" ++ pyValRender v ++ "\"/>" := by
  refine ⟨rfl, ?_, rfl⟩
  cases v with
  | str s => simp [setValueType]
  | int n => simp [setValueType]

/-- C9: exec_cmd issues exactly one request; a status of 400 or more
fails with the client (transport) error, a timeout with the timeout
error, a connection failure with the client error, each propagated
unchanged and with no value returned; get_value receives exec_cmd's
result unchanged. -/
theorem exec_cmd_error_propagation (http : String → HttpOutcome)
    (endpoint cmd key action : String) :
    (exec_cmd http endpoint cmd key).1 = [execCmdUrl endpoint cmd]
    ∧ (∀ status body, http (execCmdUrl endpoint cmd) = HttpOutcome.response status body →
        400 ≤ status →
        (exec_cmd http endpoint cmd key).2 = Except.error PyError.clientError)
    ∧ (http (execCmdUrl endpoint cmd) = HttpOutcome.timeout →
        (exec_cmd http endpoint cmd key).2 = Except.error PyError.timeoutError)
    ∧ (http (execCmdUrl endpoint cmd) = HttpOutcome.connError →
        (exec_cmd http endpoint cmd key).2 = Except.error PyError.clientError)
    ∧ (get_value http endpoint action key).2 =
        (exec_cmd http endpoint ("<name>" ++ action ++ "</name>") key).2 := by
  refine ⟨rfl, ?_, ?_, ?_, rfl⟩
  · intro status body hr hs
    simp [exec_cmd, hr, hs]
  · intro hr
    simp [exec_cmd, hr]
  · intro hr
    simp [exec_cmd, hr]

/-- C9 witness: an HTTP 500 yields the client error and a timeout yields
the timeout error, at a concrete command. -/
theorem exec_cmd_error_propagation_witness :
    (exec_cmd http500 demoEndpoint "<name>GetMute</name>" "mute").2 =
      Except.error PyError.clientError
    ∧ (exec_cmd timeoutHttp demoEndpoint "<name>GetMute</name>" "mute").2 =
      Except.error PyError.timeoutError :=
  ⟨(exec_cmd_error_propagation http500 demoEndpoint "<name>GetMute</name>" "mute"
      "GetMute").2.1 500 "Internal Server Error" rfl (by norm_num),
   (exec_cmd_error_propagation timeoutHttp demoEndpoint "<name>GetMute</name>" "mute"
      "GetMute").2.2.1 rfl⟩

/-- C10: when get_soundbar_status succeeds but the volume value is absent
or not parseable as a number, async_update raises only after assigning
the new mute flag: the returned snapshot has is_muted recomputed from the
new response while volume and state keep their previous values, and the
float conversion error propagates. -/
theorem async_update_bad_volume_updates_mute_only (http : String → HttpOutcome)
    (endpoint : String) (s : EntityState) (st : SoundbarStatus) (e : PyError)
    (h1 : (get_soundbar_status http endpoint).2 = Except.ok st)
    (h2 : pyFloat st.volume = Except.error e) :
    async_update http endpoint s =
      ({ s with is_muted := pyEqStr st.mute "on" }, Except.error e) := by
  simp [async_update, h1, h2]

/-- C10 witness: a response lacking the volume field but carrying mute on
leaves state and volume at their cached values while is_muted is already
set to true, and the TypeError from float(None) propagates. -/
theorem async_update_bad_volume_updates_mute_only_witness :
    async_update noVolumeHttp demoEndpoint initialEntityState =
      ({ initialEntityState with is_muted := true }, Except.error PyError.typeError) := by
  have h := async_update_bad_volume_updates_mute_only noVolumeHttp demoEndpoint
    initialEntityState ⟨XVal.text "on", XVal.none, XVal.text "on"⟩
    PyError.typeError (by rfl) (by rfl)
  simpa [pyEqStr] using h

/-- C1: get_soundbar_status passes actions that are already wrapped in
name elements to get_value, which wraps them again: the three requests it
issues carry cmd parameters that URL-decode to doubly wrapped commands,
not to the single-wrapped commands of the get_value contract. The wrapped
literal in this call is the failing input. -/
theorem get_soundbar_status_cmd_double_wrapped :
    (get_soundbar_status cannedHttp demoEndpoint).1 =
      [execCmdUrl demoEndpoint "<name><name>GetPowerStatus</name></name>",
       execCmdUrl demoEndpoint "<name><name>GetVolume</name></name>",
       execCmdUrl demoEndpoint "<name><name>GetMute</name></name>"]
    ∧ pyUnquote (pyQuote "<name><name>GetPowerStatus</name></name>") =
      "<name><name>GetPowerStatus</name></name>"
    ∧ "<name><name>GetPowerStatus</name></name>" ≠ "<name>GetPowerStatus</name>" :=
  ⟨by rfl, by rfl, by decide⟩

/-- C2 counterexample: with a well-formed response lacking the mute
field, get_value for mute returns the absent value, yet async_update
succeeds and silently sets is_muted to false (even from a previously
true flag) instead of producing any failure. -/
theorem async_update_missing_mute_silent_false_cex :
    (get_value noMuteHttp demoEndpoint "GetMute" "mute").2 = Except.ok XVal.none
    ∧ (async_update noMuteHttp demoEndpoint
        { state := MediaState.on, volume := some 1, is_muted := true }).2 = Except.ok ()
    ∧ (async_update noMuteHttp demoEndpoint
        { state := MediaState.on, volume := some 1, is_muted := true }).1.is_muted =
      false := by
  have h : (get_soundbar_status noMuteHttp demoEndpoint).2 =
      Except.ok ⟨XVal.text "on", XVal.text "37", XVal.none⟩ := by rfl
  refine ⟨by rfl, ?_, ?_⟩
  · simp [async_update, h, pyFloat_text_37]
  · simp [async_update, h, pyFloat_text_37, pyEqStr]

/-- C2 amended: a response lacking the mute field makes get_value return
the absent value, and async_update then completes successfully with
is_muted silently computed as false (Python None never equals the string
on); no failure is produced. -/
theorem async_update_missing_mute_defaults_false (http : String → HttpOutcome)
    (endpoint : String) (s : EntityState) (st : SoundbarStatus) (v : Rat)
    (h1 : (get_soundbar_status http endpoint).2 = Except.ok st)
    (h2 : st.mute = XVal.none)
    (h3 : pyFloat st.volume = Except.ok v) :
    (async_update http endpoint s).2 = Except.ok ()
    ∧ (async_update http endpoint s).1.is_muted = false := by
  constructor
  · simp [async_update, h1, h3]
  · simp [async_update, h1, h3, h2, pyEqStr]

/-- C2 amended witness: the missing-mute device, starting from a muted
snapshot. -/
theorem async_update_missing_mute_defaults_false_witness :
    (async_update noMuteHttp demoEndpoint
      { state := MediaState.on, volume := some 1, is_muted := true }).2 = Except.ok ()
    ∧ (async_update noMuteHttp demoEndpoint
        { state := MediaState.on, volume := some 1, is_muted := true }).1.is_muted =
      false :=
  async_update_missing_mute_defaults_false noMuteHttp demoEndpoint
    { state := MediaState.on, volume := some 1, is_muted := true }
    ⟨XVal.text "on", XVal.text "37", XVal.none⟩ 37 (by rfl) (by rfl) pyFloat_text_37

/-- C3 counterexample: a successful response whose well-formed body has
no UIC envelope makes exec_cmd raise KeyError, not return an absent
result. -/
theorem exec_cmd_missing_envelope_raises_cex :
    xmltodictParse noEnvelopeBody =
      some ("foo", XVal.dict [("bar", XVal.text "1")])
    ∧ (exec_cmd noEnvelopeHttp demoEndpoint "<name>GetMute</name>" "mute").2 =
      Except.error (PyError.keyError "UIC") :=
  ⟨by rfl, by rfl⟩

/-- C3 amended: on a successful response with a well-formed body,
exec_cmd returns the absent value when the requested key is missing from
a present UIC.response mapping, but raises KeyError when the root tag is
not UIC or when the response key is missing under it. -/
theorem exec_cmd_missing_key_vs_envelope (http : String → HttpOutcome)
    (endpoint cmd key : String) (status : Nat) (body : String)
    (hr : http (execCmdUrl endpoint cmd) = HttpOutcome.response status body)
    (hs : status < 400) :
    (∀ es es2, xmltodictParse body = some ("UIC", XVal.dict es) →
      xlookup "response" es = some (XVal.dict es2) →
      xlookup key es2 = Option.none →
      (exec_cmd http endpoint cmd key).2 = Except.ok XVal.none)
    ∧ (∀ tag v, xmltodictParse body = some (tag, v) → tag ≠ "UIC" →
      (exec_cmd http endpoint cmd key).2 = Except.error (PyError.keyError "UIC"))
    ∧ (∀ es, xmltodictParse body = some ("UIC", XVal.dict es) →
      xlookup "response" es = Option.none →
      (exec_cmd http endpoint cmd key).2 =
        Except.error (PyError.keyError "response")) := by
  have hlt : ¬ 400 ≤ status := by omega
  refine ⟨?_, ?_, ?_⟩
  · intro es es2 hparse hresp hkey
    simp [exec_cmd, hr, hlt, hparse, extractKey, hresp, hkey]
  · intro tag v hparse htag
    simp [exec_cmd, hr, hlt, hparse, extractKey, htag]
  · intro es hparse hresp
    simp [exec_cmd, hr, hlt, hparse, extractKey, hresp]

/-- C3 amended witness: the missing-mute body yields the absent value for
mute, the envelope-free body raises KeyError for UIC, and a UIC document
without a response child raises KeyError for response. -/
theorem exec_cmd_missing_key_vs_envelope_witness :
    (exec_cmd noMuteHttp demoEndpoint "<name>GetMute</name>" "mute").2 =
      Except.ok XVal.none
    ∧ (exec_cmd noEnvelopeHttp demoEndpoint "<name>GetMute</name>" "mute").2 =
      Except.error (PyError.keyError "UIC") :=
  ⟨(exec_cmd_missing_key_vs_envelope noMuteHttp demoEndpoint "<name>GetMute</name>"
      "mute" 200 noMuteBody rfl (by norm_num)).1
    [("response", XVal.dict [("power", XVal.text "on"), ("volume", XVal.text "37")])]
    [("power", XVal.text "on"), ("volume", XVal.text "37")] (by rfl) (by rfl) (by rfl),
   (exec_cmd_missing_key_vs_envelope noEnvelopeHttp demoEndpoint "<name>GetMute</name>"
      "mute" 200 noEnvelopeBody rfl (by norm_num)).2.1
    "foo" (XVal.dict [("bar", XVal.text "1")]) (by rfl) (by decide)⟩

/-- C4 counterexample: async_set_volume_level converts the fraction with
a truncating int() cast, not rounding: at the fraction 3/8 it sends the
wire value 37 while rounding 37.5 gives 38. -/
theorem async_set_volume_level_truncates_cex :
    (async_set_volume_level cannedHttp demoEndpoint (3 / 8)).1 =
      [execCmdUrl demoEndpoint (setValueCmd "SetVolume" "volume" (PyVal.int 37))]
    ∧ pyTruncInt ((3 / 8 : Rat) * 100) = 37
    ∧ round ((3 / 8 : Rat) * 100) = 38 := by
  have ht : pyTruncInt ((3 / 8 : Rat) * 100) = 37 := by
    norm_num [pyTruncInt]
  refine ⟨?_, ht, ?_⟩
  · simp [async_set_volume_level, ht, set_value, exec_cmd]
  · norm_num [round_eq]

/-- C4 amended: for every fraction between 0 and 1, async_set_volume_level
calls set_value for SetVolume and volume with the integer wire value
obtained by truncating the fraction times 100 toward zero; truncation at
the fraction 1 still sends 100, and on reads the wire value 0 maps to the
fraction 0 and the wire value 100 to the fraction 1. -/
theorem async_set_volume_level_truncation (http : String → HttpOutcome)
    (endpoint : String) (s : EntityState) (f : Rat)
    (_h0 : 0 ≤ f) (_h1 : f ≤ 1) :
    async_set_volume_level http endpoint f =
      set_value http endpoint "SetVolume" "volume" (PyVal.int (pyTruncInt (f * 100)))
    ∧ pyTruncInt ((1 : Rat) * 100) = 100
    ∧ (async_update volume0Http endpoint s).1.volume = some 0
    ∧ (async_update volume100Http endpoint s).1.volume = some 1 := by
  have hst0 : (get_soundbar_status volume0Http endpoint).2 =
      Except.ok ⟨XVal.text "on", XVal.text "0", XVal.text "off"⟩ := by rfl
  have hst100 : (get_soundbar_status volume100Http endpoint).2 =
      Except.ok ⟨XVal.text "on", XVal.text "100", XVal.text "off"⟩ := by rfl
  refine ⟨rfl, by norm_num [pyTruncInt], ?_, ?_⟩
  · simp [async_update, hst0, pyFloat_text_0]
  · simp [async_update, hst100, pyFloat_text_100]

/-- C4 amended witness: the fraction 1 sends the wire value 100, and the
boundary reads hold at the demo endpoint. -/
theorem async_set_volume_level_truncation_witness :
    async_set_volume_level cannedHttp demoEndpoint 1 =
      set_value cannedHttp demoEndpoint "SetVolume" "volume"
        (PyVal.int (pyTruncInt ((1 : Rat) * 100)))
    ∧ pyTruncInt ((1 : Rat) * 100) = 100
    ∧ (async_update volume0Http demoEndpoint initialEntityState).1.volume = some 0
    ∧ (async_update volume100Http demoEndpoint initialEntityState).1.volume = some 1 :=
  async_set_volume_level_truncation cannedHttp demoEndpoint initialEntityState 1
    (by norm_num) (by norm_num)

/-- C8: get_value issues exactly one request, whose URL is the endpoint
with the cmd query parameter set to the percent-encoded single-wrapped
action, and that parameter URL-decodes back to exactly the wrapped
action. -/
theorem get_value_single_request_decodes (http : String → HttpOutcome)
    (endpoint action key : String)
    (h : ∀ c ∈ action.data, c.toNat < 256) :
    (get_value http endpoint action key).1 =
      [endpoint ++ "?" ++ "cmd=" ++ pyQuote ("<name>" ++ action ++ "</name>")]
    ∧ pyUnquote (pyQuote ("<name>" ++ action ++ "</name>")) =
      "<name>" ++ action ++ "</name>" := by
  have hfix1 : ∀ c ∈ ['<', 'n', 'a', 'm', 'e', '>'], c.toNat < 256 := by decide
  have hfix2 : ∀ c ∈ ['<', '/', 'n', 'a', 'm', 'e', '>'], c.toNat < 256 := by decide
  refine ⟨rfl, ?_⟩
  apply pyUnquote_pyQuote
  intro c hc
  simp only [String.data_append] at hc
  rcases List.mem_append.1 hc with hc1 | hc2
  · rcases List.mem_append.1 hc1 with hc3 | hc4
    · exact hfix1 c hc3
    · exact h c hc4
  · exact hfix2 c hc2

/-- C8 witness: the GetVolume action, whose characters are all one
byte. -/
theorem get_value_single_request_decodes_witness :
    (get_value cannedHttp demoEndpoint "GetVolume" "volume").1 =
      [demoEndpoint ++ "?" ++ "cmd=" ++ pyQuote ("<name>" ++ "GetVolume" ++ "</name>")]
    ∧ pyUnquote (pyQuote ("<name>" ++ "GetVolume" ++ "</name>")) =
      "<name>" ++ "GetVolume" ++ "</name>" :=
  get_value_single_request_decodes cannedHttp demoEndpoint "GetVolume" "volume"
    (by decide)

end Soundbar
